import Mathlib

/-!
Shallow embedding of the document vision-extraction pipeline of
`tools/OcrTool.py` (the `OcrTool` class and its module-level helper
functions), together with theorems checking the claims of the specification
about it.

External collaborators (the filesystem, the PDF renderer, PIL, the
similarity-search service `find_similar_reference`, and the chat-model
client) are modelled as explicit environment records of total or fallible
functions; `Except String` models a raised Python exception carrying its
message string.  Pure helpers are translated directly.
-/

namespace OcrToolSpec

/-- Python truthiness of an optional string: `None` and `""` are falsy. -/
def pyTruthy : Option String → Bool
  | none => false
  | some s => s != ""

/-- Rendering of an optional string inside a Python f-string:
`None` renders as the text `None`, a string renders as itself. -/
def pyStrOpt : Option String → String
  | none => "None"
  | some s => s

/-- A byte buffer, each entry a byte value. -/
abbrev Bytes := List Nat

/-- Models Python `str.startswith` (Lean `String.startsWith`) on the
underlying character lists. -/
def strStartsWith (s pre : String) : Bool :=
  pre.data.isPrefixOf s.data

/-- The standard base64 alphabet. -/
def base64Alphabet : List Char :=
  "ABCDEFGHIJKLMNOPQRSTUVWXYZabcdefghijklmnopqrstuvwxyz0123456789+/".toList

/-- The base64 digit for a 6-bit value. -/
def base64Digit (n : Nat) : Char := base64Alphabet.getD n 'A'

/-- RFC 4648 base64 of a byte list, with padding. -/
def base64Chars : Bytes → List Char
  | [] => []
  | [b0] =>
      [base64Digit (b0 / 4 % 64), base64Digit (b0 % 4 * 16), '=', '=']
  | [b0, b1] =>
      [base64Digit (b0 / 4 % 64), base64Digit ((b0 % 4 * 16 + b1 / 16) % 64),
       base64Digit (b1 % 16 * 4), '=']
  | b0 :: b1 :: b2 :: rest =>
      base64Digit (b0 / 4 % 64) :: base64Digit ((b0 % 4 * 16 + b1 / 16) % 64) ::
      base64Digit ((b1 % 16 * 4 + b2 / 64) % 64) :: base64Digit (b2 % 64) ::
      base64Chars rest

/-- Models `base64.b64encode(bytes).decode("utf-8")`. -/
def base64Encode (bs : Bytes) : String := String.mk (base64Chars bs)

/-- The dict `SUPPORTED_MIME_FORMATS` from `tools/OcrTool.py`, as ordered
(key, value) pairs of the Python dict. -/
def SUPPORTED_MIME_FORMATS : List (String × String) :=
  [("JPEG", "image/jpeg"), ("JPG", "image/jpeg"), ("PNG", "image/png"),
   ("WEBP", "image/webp"), ("GIF", "image/gif"), ("PDF", "application/pdf")]

/-- Dict access `SUPPORTED_MIME_FORMATS[key]`. -/
def mimeFormat (key : String) : String :=
  (SUPPORTED_MIME_FORMATS.lookup key).getD ""

/-- The values view `SUPPORTED_MIME_FORMATS.values()`: the accepted MIME strings. -/
def supportedMimeValues : List String :=
  SUPPORTED_MIME_FORMATS.map Prod.snd

/-- The f-string rendering of the `SUPPORTED_MIME_FORMATS` dict, as Python
prints it inside the `checktype` error message. -/
def supportedFormatsRepr : String :=
  "\x7b\x27JPEG\x27: \x27image/jpeg\x27, \x27JPG\x27: \x27image/jpeg\x27, " ++
  "\x27PNG\x27: \x27image/png\x27, \x27WEBP\x27: \x27image/webp\x27, " ++
  "\x27GIF\x27: \x27image/gif\x27, \x27PDF\x27: \x27application/pdf\x27\x7d"

/-- Embeds `checktype(ocr_image_url, mime)`: raises `ValueError` unless the sniffed
MIME is one of the supported values. `mime` is `None` when detection
failed; `None not in values` holds, so it is rejected too. -/
def checktype (ocr_image_url : String) (mime : Option String) :
    Except String Unit :=
  if (match mime with
      | some m => supportedMimeValues.contains m
      | none => false) then
    Except.ok ()
  else
    Except.error
      ("File " ++ ocr_image_url ++ " invalid file format with mime " ++
       pyStrOpt mime ++ ". Supported formats: " ++ supportedFormatsRepr ++ ".")

/-- What the pipeline observes of the filesystem: `Path(p).exists()` and
`Path(p).is_file()`. -/
structure FS where
  pathExists : String → Bool
  isFile : String → Bool

/-- Embeds `get_file_path(input_params)`: candidate `"/app" + rel`, then if that
does not exist `".." + rel`, then if that does not exist `rel` itself;
finally the chosen candidate must be a regular file or `FileNotFoundError`
is raised. -/
def get_file_path (fs : FS) (rel_path : String) : Except String String :=
  let u1 := "/app" ++ rel_path
  let u2 := if fs.pathExists u1 then u1 else ".." ++ rel_path
  let u3 := if fs.pathExists u2 then u2 else rel_path
  if fs.isFile u3 then Except.ok u3
  else Except.error ("Filename " ++ u3 ++ " doesn\x27t exist")

/-- The first of the two prefixed candidates that exists, with the raw
path as final fallback.  Stated from the amended resolution policy, for
comparison with `get_file_path`. -/
def resolve_first_existing (fs : FS) (rel_path : String) : String :=
  match ["/app" ++ rel_path, ".." ++ rel_path].find? fs.pathExists with
  | some c => c
  | none => rel_path

/-- Amended resolution policy: the first candidate that *exists* wins
(raw path as final fallback), and the winner must additionally be a
regular file. -/
def get_file_path_amended (fs : FS) (rel_path : String) :
    Except String String :=
  let w := resolve_first_existing fs rel_path
  if fs.isFile w then Except.ok w
  else Except.error ("Filename " ++ w ++ " doesn\x27t exist")

/-- What the pipeline observes of the external libraries it rasterizes
with (pypdfium2 and PIL).  Each field is the composite result of the
library calls on the file at a path; `Except.error` models a raised
exception. -/
structure FileEnv where
  /-- For a PDF at the path, the JPEG quality-85 bytes of each page
  rendered at the given scale, in page order: the composite of
  `pdfium.PdfDocument`, `page.render(scale)`, `convert_to_pil_img` and
  the PIL save-to-buffer step inside `pil_image_to_base64`. -/
  pdfPagesJpeg : String → Rat → Except String (List Bytes)
  /-- For a flat non-JPEG image at the path, the JPEG quality-85 bytes
  after `Image.open` and `convert("RGB")`. -/
  imageRgbJpeg : String → Except String Bytes
  /-- The raw bytes of the file at the path (`open(path, "rb").read()`). -/
  readBytes : String → Except String Bytes

/-- Embeds `image_to_base64(image_path)`: base64 of the raw file bytes (the read
itself is supplied by the environment). -/
def image_to_base64 (image_binary_data : Bytes) : String :=
  base64Encode image_binary_data

/-- Embeds `pil_image_to_base64(pil_image)`: base64 of the in-memory JPEG
encoding (the PIL encoding itself is supplied by the environment). -/
def pil_image_to_base64 (jpeg_bytes : Bytes) : String :=
  base64Encode jpeg_bytes

/-- Embeds `recopile_files(...)`: appends to `base64_images` one entry per PDF
page (JPEG branch), or one re-encoded entry (non-JPEG flat image), or the
original bytes base64-encoded (JPEG).  `folder_of_appended_file` is
accepted and unused, as in the source. -/
def recopile_files (env : FileEnv) (base64_images filenames_to_delete : List String)
    (_folder_of_appended_file : String) (mime : Option String)
    (ocr_image_url : String) (scale : Rat) :
    Except String (List String × List String) :=
  if mime == some (mimeFormat "PDF") then
    match env.pdfPagesJpeg ocr_image_url scale with
    | Except.ok pages =>
        Except.ok (base64_images ++ pages.map pil_image_to_base64,
          filenames_to_delete)
    | Except.error e => Except.error e
  else if !(mime == some (mimeFormat "JPEG")) && !(mime == some (mimeFormat "JPG")) then
    match env.imageRgbJpeg ocr_image_url with
    | Except.ok bs =>
        Except.ok (base64_images ++ [pil_image_to_base64 bs], filenames_to_delete)
    | Except.error e => Except.error e
  else
    match env.readBytes ocr_image_url with
    | Except.ok bs =>
        Except.ok (base64_images ++ [image_to_base64 bs], filenames_to_delete)
    | Except.error e => Except.error e

/-- Models `os.path.dirname`. -/
def os_path_dirname (p : String) : String :=
  let parts := p.data.splitOn '/'
  if parts.length ≤ 1 then ""
  else String.mk (List.intercalate ['/'] parts.dropLast)

/-- Embeds `prepare_images_for_ocr(ocr_image_url, mime, scale)`: starts from two
empty lists and delegates to `recopile_files`. -/
def prepare_images_for_ocr (env : FileEnv) (ocr_image_url : String)
    (mime : Option String) (scale : Rat) :
    Except String (List String × List String) :=
  recopile_files env [] [] (os_path_dirname ocr_image_url) mime ocr_image_url scale

/-- Message roles of the conversation. -/
inductive Role
  | system
  | user
  | assistant
deriving DecidableEq

/-- An image payload item as produced by `get_image_payload_item`: the
data URL, and the `detail` field present only in the OpenAI shape. -/
structure ImagePayload where
  url : String
  detail : Option String
deriving DecidableEq

/-- Message content: plain text, or a list of image payload parts. -/
inductive MsgContent
  | text : String → MsgContent
  | parts : List ImagePayload → MsgContent
deriving DecidableEq

/-- A role-tagged conversation message. -/
structure Message where
  role : Role
  content : MsgContent
deriving DecidableEq

/-- Embeds `get_image_payload_item(img_b64, mime, provider)`: Gemini shape omits
the `detail` field, every other provider gets the OpenAI shape with
`detail: "high"`. -/
def get_image_payload_item (img_b64 mime : String) (provider : Option String) :
    ImagePayload :=
  if provider == some "gemini" then
    ⟨"data:" ++ mime ++ ";base64," ++ img_b64, none⟩
  else
    ⟨"data:" ++ mime ++ ";base64," ++ img_b64, some "high"⟩

/-- The fixed system-prompt text of `build_messages`. -/
def OCR_SYSTEM_PROMPT : String :=
  "You are an agent specializing in OCR. You may receive " ++
  "“reference images” with sectors marked in color (usually red) with " ++
  "labels to indicate relevant sectors." ++
  " Use them in real cases to prioritize content."

/-- The explanatory user message preceding the reference image. -/
def REFERENCE_INTRO_PROMPT : String :=
  "I will send you an image as an example of a REFERENCE with " ++
  "visual markers (red borders) indicating the positions/sections" ++
  " where the most relevant data on the invoice is located." ++
  " Next to the box is a label for the section. " ++
  "Use it only as a template to know which areas are important " ++
  "in real images."

/-- The assistant acknowledgment closing the reference exchange. -/
def REFERENCE_ACK : String :=
  "Understood. Now please send me the real images and specify " ++
  "the information you need me to extract."

/-- Embeds `build_messages(base64_images, question, reference_image_base64,
extra_system_content, provider)`: system message (extra content appended
when truthy), optional three-message reference exchange, the question,
then one user message per document image. -/
def build_messages (base64_images : List String) (question : String)
    (reference_image_base64 : Option String)
    (extra_system_content : Option String) (provider : Option String) :
    List Message :=
  let mime := mimeFormat "JPEG"
  let sys_content :=
    if pyTruthy extra_system_content then
      OCR_SYSTEM_PROMPT ++ "\n" ++ extra_system_content.getD ""
    else OCR_SYSTEM_PROMPT
  let refBlock :=
    if pyTruthy reference_image_base64 then
      [Message.mk Role.user (MsgContent.text REFERENCE_INTRO_PROMPT),
       Message.mk Role.user (MsgContent.parts
         [get_image_payload_item (reference_image_base64.getD "") mime provider]),
       Message.mk Role.assistant (MsgContent.text REFERENCE_ACK)]
    else []
  Message.mk Role.system (MsgContent.text sys_content) ::
    (refBlock ++
      Message.mk Role.user (MsgContent.text question) ::
        base64_images.map (fun b64 =>
          Message.mk Role.user (MsgContent.parts
            [get_image_payload_item b64 mime provider])))

/-- An extraction schema: `jsonDump` is
`json.dumps(schema_json, ensure_ascii=False, indent=2)` of the schema JSON
that `read_structured_output` derives from the Pydantic class. -/
structure Schema where
  jsonDump : String
deriving DecidableEq

/-- Provider derivation inside `get_vision_model_response` (lines
460-465): from the model-name prefix, not from configuration. -/
def providerOf (model_name : String) : Option String :=
  if strStartsWith model_name "gpt-" then some "openai"
  else if strStartsWith model_name "gemini" then some "gemini"
  else none

/-- Temperature policy inside `get_vision_model_response` (lines
468-471): gpt-5 models only accept temperature 1. -/
def temperatureOf (model_name : String) : Nat :=
  if strStartsWith model_name "gpt-5" then 1 else 0

/-- Which invocation style a model call used. -/
inductive LlmCall
  | structuredCall
  | plainCall
deriving DecidableEq

/-- The normalized model response: a decoded structured object (opaque
payload token) or plain text content. -/
inductive ModelResponse
  | obj : String → ModelResponse
  | txt : String → ModelResponse
deriving DecidableEq

/-- The chat-model client: the composite of `get_llm(provider, model,
temperature)` followed by either the `with_structured_output(...)` wrapper
invocation or the plain `invoke`. -/
structure LlmEnv where
  structuredInvoke : Option String → String → Nat → Option Schema →
    List Message → Except String String
  plainInvoke : Option String → String → Nat → List Message →
    Except String String

/-- Embeds `get_vision_model_response(messages, model_name, structured_schema,
force_compat)`: with a schema and no compatibility mode, try the
structured wrapper and on any exception fall back to an unstructured
invocation; otherwise invoke unstructured directly.  The second component
records which invocations ran, in order. -/
def get_vision_model_response (env : LlmEnv) (messages : List Message)
    (model_name : String) (structured_schema : Option Schema)
    (force_compat : Bool) : Except String (ModelResponse × List LlmCall) :=
  let provider := providerOf model_name
  let temperature := temperatureOf model_name
  if structured_schema.isSome && !force_compat then
    match env.structuredInvoke provider model_name temperature
        structured_schema messages with
    | Except.ok v =>
        Except.ok (ModelResponse.obj v, [LlmCall.structuredCall])
    | Except.error _ =>
        match env.plainInvoke provider model_name temperature messages with
        | Except.ok content =>
            Except.ok (ModelResponse.txt content,
              [LlmCall.structuredCall, LlmCall.plainCall])
        | Except.error e => Except.error e
  else
    match env.plainInvoke provider model_name temperature messages with
    | Except.ok content => Except.ok (ModelResponse.txt content, [LlmCall.plainCall])
    | Except.error e => Except.error e

/-- The constant `GET_JSON_PROMPT`: the no-reference default extraction prompt. -/
def GET_JSON_PROMPT : String :=
  " Thoroughly analyze and extract all the information from the image(s).\n" ++
  " DO NOT SUMMARIZE OR OMIT INFORMATION, EVEN IF IT IS REPEATED OR THERE ARE SIMILAR PARTS.\n" ++
  " The information has to be returned in JSON format.\n"

/-- The constant `GET_JSON_WITH_REFERENCE_PROMPT`: the default prompt when a reference
template was matched. -/
def GET_JSON_WITH_REFERENCE_PROMPT : String :=
  "You are an expert in extracting information from invoices and structured documents. " ++
  "Extract the key information from the document provided in the images.\n\n" ++
  "Strict instructions:\n" ++
  "- Use ONLY the reference image (first image) to determine what data to extract. " ++
  "The data must be clearly highlighted in red with boxes in the reference image. " ++
  "GIVE ABSOLUTE PRIORITY to data indicated in red; ignore or do not consider data " ++
  "labeled in black or other colors if they do not match the red highlights.\n" ++
  "- If a data point is not indicated or highlighted in red in the reference image, " ++
  "DO NOT extract it or include it in the output. Leave it as null or empty.\n" ++
  "- Use the exact text from the document for extractions, but only from the areas " ++
  "highlighted in red.\n" ++
  "- The information has to be returned in JSON format.\n" ++
  "- DO NOT SUMMARIZE OR OMIT INFORMATION from the highlighted red areas, EVEN IF " ++
  "IT IS REPEATED OR THERE ARE SIMILAR PARTS.\n\n" ++
  "The first image is the REFERENCE with red markers. The following images are the " ++
  "document to extract data from.\n"

/-- Embeds `OcrTool.get_prompt(reference_image_base64, reference_image_path)`:
the reference-based prompt when either reference field is truthy. -/
def get_prompt (reference_image_base64 reference_image_path : Option String) :
    String :=
  if pyTruthy reference_image_path || pyTruthy reference_image_base64 then
    GET_JSON_WITH_REFERENCE_PROMPT
  else GET_JSON_PROMPT

/-- The header prepended to the schema JSON in compatibility mode. -/
def STRUCTURED_SCHEMA_HEADER : String :=
  "Expected output JSON schema for structured output: "

/-- Embeds `OcrTool.read_structured_output(extra_system, force_compat,
structured_schema)`: in compatibility mode with a schema, replace
`extra_system` with the schema JSON text; otherwise pass `extra_system`
through unchanged. -/
def read_structured_output (extra_system : Option String) (force_compat : Bool)
    (structured_schema : Option Schema) : Option String :=
  match force_compat, structured_schema with
  | true, some s => some (STRUCTURED_SCHEMA_HEADER ++ s.jsonDump)
  | _, _ => extra_system

/-- The constant `DEFAULT_MODEL` from `tools/OcrTool.py`. -/
def DEFAULT_MODEL : String := "gpt-5-mini"

/-- The constant `DEFAULT_PROVIDER` from `tools/OcrTool.py`. -/
def DEFAULT_PROVIDER : String := "openai"

/-- The constant `DEFAULT_PDF_RENDER_SCALE` from `tools/OcrTool.py` (2.0). -/
def DEFAULT_PDF_RENDER_SCALE : Rat := 2

/-- The per-agent tool configuration record found in ThreadContext
`extra_info` under `tool_config / agent_id / OCR_TOOL_ID`. -/
structure ToolCfg where
  model : Option String
  provider : Option String

/-- Embeds `get_llm_model(agent_id)`: environment override first, then the
per-agent ThreadContext configuration (any exception while reading it is
caught and treated as absent), then the hard-coded defaults.
`extraInfoCfg` is `Except.error` when reading `extra_info` raised. -/
def get_llm_model (envOcrModel : Option String)
    (extraInfoCfg : Except Unit (Option ToolCfg)) : String × Option String :=
  if pyTruthy envOcrModel then
    let m := envOcrModel.getD ""
    (m, some (if strStartsWith m "gemini" then "gemini" else "openai"))
  else
    let found : Option String × Option String :=
      match extraInfoCfg with
      | Except.error _ => (none, none)
      | Except.ok none => (none, none)
      | Except.ok (some c) => (c.model, c.provider)
    match found.1 with
    | none => (DEFAULT_MODEL, some DEFAULT_PROVIDER)
    | some m => (m, found.2)

/-- The observable effects and external calls of one `OcrTool.run`
invocation, in program order. -/
inductive Event
  | getFilePathCall
  | readMimeCall
  | checktypeCall
  | prepareImagesCall
  | tempFileCreated (path : String)
  | findRefCall (path agentId : String) (disableThreshold : Bool)
  | visionCall (model : String) (forceCompat : Bool)
  | tempFileDeleted (path : String)
  | tempFileDeleteFailed (path : String)
deriving DecidableEq

/-- The value `OcrTool.run` returns: the model response, or the
`{"error": msg}` dictionary. -/
inductive RunResult
  | content : ModelResponse → RunResult
  | errDict : String → RunResult
deriving DecidableEq

/-- Embeds `cleanup_temp_files(filenames_to_delete)`: attempts `os.remove` on
every listed path; a failed removal is logged and swallowed.  `removeOk`
tells whether `os.remove` succeeds on a path; the result is the list of
deletion events. -/
def cleanup_temp_files (removeOk : String → Bool)
    (filenames_to_delete : List String) : List Event :=
  filenames_to_delete.map (fun filename_del =>
    if removeOk filename_del then Event.tempFileDeleted filename_del
    else Event.tempFileDeleteFailed filename_del)

/-- The external world of one `OcrTool.run` invocation. -/
structure RunEnv where
  fs : FS
  /-- Result of `read_mime(path)`: sniffed MIME, `None` on detection failure (the
  source catches exceptions internally and returns `None`). -/
  readMime : String → Option String
  files : FileEnv
  /-- The `os.urandom(16).hex()` token of this invocation. -/
  uuid : String
  /-- The decode/open/save composite writing the first PDF page to the
  temp search file; `Except.error` models a raised exception. -/
  saveSearchTemp : String → Except String Unit
  /-- The call `find_similar_reference(path, agent_id, ignore_env_threshold)`:
  returns `(reference_image_path, reference_image_base64)`, or raises. -/
  findRef : String → String → Bool → Except String (Option String × Option String)
  /-- The `COPILOT_OCRTOOL_MODEL` environment variable. -/
  envOcrModel : Option String
  /-- The ThreadContext per-agent tool configuration, per agent id. -/
  extraInfoCfg : String → Except Unit (Option ToolCfg)
  /-- The loader `load_schema(name)` from the schema registry. -/
  loadSchema : String → Option Schema
  llm : LlmEnv

/-- The caller-supplied input dictionary of `OcrTool.run`.  Optional
fields are `none` when the key is absent. -/
structure InputParams where
  path : String
  question : Option String
  structured_output : Option String
  force_structured_output_compat : Bool
  disable_threshold_filter : Bool
  scale : Option Rat

/-- The error message returned when `agent_id` is missing. -/
def AGENT_ID_ERROR : String :=
  "OcrTool requires agent_id to access the reference database. " ++
  "Please ensure the tool is properly configured with an agent."

/-- Result and events of a suffix of the `run` body; `Except.error` is an
exception travelling to the boundary handler. -/
structure InvokeOut where
  result : Except String RunResult
  events : List Event

/-- Lines 637-684 of `OcrTool.run`: choose the default prompt, load the
schema, decide compatibility mode, build the conversation and invoke the
vision model. -/
def runInvoke (env : RunEnv) (inp : InputParams) (openai_model : String)
    (provider : Option String) (model_requires_compat : Bool)
    (base64_images : List String)
    (reference_image_path reference_image_base64 : Option String) :
    InvokeOut :=
  let default_prompt := get_prompt reference_image_base64 reference_image_path
  let question := inp.question.getD default_prompt
  let structured_schema :=
    if pyTruthy inp.structured_output then
      env.loadSchema (inp.structured_output.getD "")
    else none
  let force_compat := inp.force_structured_output_compat || model_requires_compat
  let extra_system := read_structured_output none force_compat structured_schema
  let messages := build_messages base64_images question reference_image_base64
    extra_system provider
  match get_vision_model_response env.llm messages openai_model
      structured_schema force_compat with
  | Except.ok (resp, _calls) =>
      ⟨Except.ok (RunResult.content resp),
       [Event.visionCall openai_model force_compat]⟩
  | Except.error e =>
      ⟨Except.error e, [Event.visionCall openai_model force_compat]⟩

/-- Lines 624-635 of `OcrTool.run`: the similarity search, guarded by the
truthiness and existence check on `first_image_for_search`.  A raised
exception in `find_similar_reference` propagates. -/
def runAfterRaster (env : RunEnv) (agent : String) (inp : InputParams)
    (openai_model : String) (provider : Option String)
    (model_requires_compat : Bool) (base64_images : List String)
    (first_image_for_search : String) : InvokeOut :=
  if first_image_for_search != "" && env.fs.pathExists first_image_for_search then
    match env.findRef first_image_for_search agent inp.disable_threshold_filter with
    | Except.error e =>
        ⟨Except.error e,
         [Event.findRefCall first_image_for_search agent
            inp.disable_threshold_filter]⟩
    | Except.ok (reference_image_path, reference_image_base64) =>
        let inv := runInvoke env inp openai_model provider model_requires_compat
          base64_images reference_image_path reference_image_base64
        ⟨inv.result,
         Event.findRefCall first_image_for_search agent
            inp.disable_threshold_filter :: inv.events⟩
  else
    let inv := runInvoke env inp openai_model provider model_requires_compat
      base64_images none none
    ⟨inv.result, inv.events⟩

/-- Result, registered temp files and events of the `try` body of
`OcrTool.run`. -/
structure BodyOut where
  result : Except String RunResult
  filenames : List String
  events : List Event

/-- The `try` body of `OcrTool.run`: agent-id guard, model selection,
path resolution, MIME sniffing and validation, rasterization, temp-file
materialization for the PDF similarity search, then the search and
invocation stages. -/
def runBody (env : RunEnv) (agent_id : Option String) (inp : InputParams) :
    BodyOut :=
  if !(pyTruthy agent_id) then
    ⟨Except.ok (RunResult.errDict AGENT_ID_ERROR), [], []⟩
  else
    let agent := agent_id.getD ""
    let mp := get_llm_model env.envOcrModel (env.extraInfoCfg agent)
    let openai_model := mp.1
    let provider := mp.2
    let model_requires_compat := strStartsWith openai_model "gpt-5"
    match get_file_path env.fs inp.path with
    | Except.error e => ⟨Except.error e, [], [Event.getFilePathCall]⟩
    | Except.ok ocr_image_url =>
      let mime := env.readMime ocr_image_url
      match checktype ocr_image_url mime with
      | Except.error e =>
          ⟨Except.error e, [],
           [Event.getFilePathCall, Event.readMimeCall, Event.checktypeCall]⟩
      | Except.ok _ =>
        let scale := inp.scale.getD DEFAULT_PDF_RENDER_SCALE
        match prepare_images_for_ocr env.files ocr_image_url mime scale with
        | Except.error e =>
            ⟨Except.error e, [],
             [Event.getFilePathCall, Event.readMimeCall, Event.checktypeCall,
              Event.prepareImagesCall]⟩
        | Except.ok (base64_images, filenames0) =>
          let stageEvents := [Event.getFilePathCall, Event.readMimeCall,
            Event.checktypeCall, Event.prepareImagesCall]
          if mime == some (mimeFormat "PDF") && !base64_images.isEmpty then
            let temp_search_file :=
              os_path_dirname ocr_image_url ++ "/" ++ env.uuid ++ "_search.jpeg"
            match env.saveSearchTemp temp_search_file with
            | Except.error e => ⟨Except.error e, filenames0, stageEvents⟩
            | Except.ok _ =>
                let out := runAfterRaster env agent inp openai_model provider
                  model_requires_compat base64_images temp_search_file
                ⟨out.result, filenames0 ++ [temp_search_file],
                 stageEvents ++ Event.tempFileCreated temp_search_file :: out.events⟩
          else
            let out := runAfterRaster env agent inp openai_model provider
              model_requires_compat base64_images ocr_image_url
            ⟨out.result, filenames0, stageEvents ++ out.events⟩

/-- Embeds `OcrTool.run(input_params)`: the `try` body, the boundary `except`
converting any exception to `{"error": "An error occurred: ..."}`, and
the `finally` cleanup of every registered temp file.  `removeOk` tells
whether `os.remove` succeeds on a path. -/
def OcrTool_run (env : RunEnv) (removeOk : String → Bool)
    (agent_id : Option String) (inp : InputParams) : RunResult × List Event :=
  let body := runBody env agent_id inp
  let result :=
    match body.result with
    | Except.ok r => r
    | Except.error e => RunResult.errDict ("An error occurred: " ++ e)
  (result, body.events ++ cleanup_temp_files removeOk body.filenames)

/-- An `os.remove` oracle that always succeeds. -/
def removeAlways : String → Bool := fun _ => true

/-- An `os.remove` oracle that always fails. -/
def removeNever : String → Bool := fun _ => false

/-- A filesystem where every path exists and is a regular file. -/
def fsAll : FS := ⟨fun _ => true, fun _ => true⟩

/-- A concrete rasterizer: two PDF pages, tiny byte buffers. -/
def filesDemo : FileEnv :=
  ⟨fun _ _ => Except.ok [[3], [4]], fun _ => Except.ok [2], fun _ => Except.ok [1]⟩

/-- A rasterizer whose PDF documents have zero pages. -/
def filesZeroPdf : FileEnv :=
  ⟨fun _ _ => Except.ok [], fun _ => Except.ok [], fun _ => Except.ok []⟩

/-- A model client where both invocation styles succeed. -/
def llmDemo : LlmEnv :=
  ⟨fun _ _ _ _ _ => Except.ok "S", fun _ _ _ _ => Except.ok "T"⟩

/-- A model client whose structured wrapper always raises. -/
def llmStructFail : LlmEnv :=
  ⟨fun _ _ _ _ _ => Except.error "sfail", fun _ _ _ _ => Except.ok "T"⟩

/-- A complete happy-path environment over a flat PNG input, with the
model pinned through the environment variable. -/
def envDemo (model : String) : RunEnv :=
  ⟨fsAll, fun _ => some "image/png", filesDemo, "u", fun _ => Except.ok (),
   fun _ _ _ => Except.ok (none, none), some model, fun _ => Except.ok none,
   fun _ => none, llmDemo⟩

/-- Same as `envDemo` but the input sniffs as a PDF, so a temp search
file is materialized. -/
def envDemoPdf (model : String) : RunEnv :=
  ⟨fsAll, fun _ => some "application/pdf", filesDemo, "u", fun _ => Except.ok (),
   fun _ _ _ => Except.ok (none, none), some model, fun _ => Except.ok none,
   fun _ => none, llmDemo⟩

/-- Same as `envDemo` but `find_similar_reference` raises. -/
def envRefBoom : RunEnv :=
  ⟨fsAll, fun _ => some "image/png", filesDemo, "u", fun _ => Except.ok (),
   fun _ _ _ => Except.error "boom", some "gpt-4o", fun _ => Except.ok none,
   fun _ => none, llmDemo⟩

/-- Same as `envDemo` but the input sniffs as an unsupported format. -/
def envBadMime : RunEnv :=
  ⟨fsAll, fun _ => some "image/tiff", filesDemo, "u", fun _ => Except.ok (),
   fun _ _ _ => Except.ok (none, none), some "gpt-4o", fun _ => Except.ok none,
   fun _ => none, llmDemo⟩

/-- A concrete input dictionary with the given compatibility flag. -/
def inpDemo (flag : Bool) : InputParams :=
  ⟨"/f", some "q", none, flag, false, none⟩

/-- The filesystem of the C6 counterexample: the root-prefixed candidate
exists but is a directory, the raw path is an existing regular file. -/
def fsC6 : FS :=
  ⟨fun p => p == "/app/doc.png" || p == "/doc.png", fun p => p == "/doc.png"⟩

/-! ## Helper lemmas -/

theorem mimeFormat_PDF : mimeFormat "PDF" = "application/pdf" := rfl

theorem mimeFormat_JPEG : mimeFormat "JPEG" = "image/jpeg" := rfl

theorem mimeFormat_JPG : mimeFormat "JPG" = "image/jpeg" := rfl

theorem str_data_append (a b : String) : (a ++ b).data = a.data ++ b.data := by
  cases a
  cases b
  rfl

theorem str_append_assoc (a b c : String) : a ++ b ++ c = a ++ (b ++ c) := by
  cases a with | mk la =>
  cases b with | mk lb =>
  cases c with | mk lc =>
  exact congrArg String.mk (List.append_assoc la lb lc)

theorem header_append_ne_empty (x : String) :
    (STRUCTURED_SCHEMA_HEADER ++ x) ≠ "" := by
  intro h
  have hd : (STRUCTURED_SCHEMA_HEADER ++ x).data = [] := by
    rw [h]
  rw [str_data_append] at hd
  rcases List.append_eq_nil.mp hd with ⟨h1, _⟩
  exact absurd h1 (by decide)

theorem cleanup_mem_shape (removeOk : String → Bool) (fns : List String)
    (e : Event) (h : e ∈ cleanup_temp_files removeOk fns) :
    ∃ p, (e = Event.tempFileDeleted p ∨ e = Event.tempFileDeleteFailed p) ∧
      p ∈ fns := by
  rcases List.mem_map.mp h with ⟨p, hp, he⟩
  refine ⟨p, ?_, hp⟩
  by_cases hr : removeOk p
  · left
    simp [hr] at he
    exact he.symm
  · right
    simp [hr] at he
    exact he.symm

theorem cleanup_attempt_of_mem (removeOk : String → Bool) (fns : List String)
    (p : String) (h : p ∈ fns) :
    (if removeOk p then Event.tempFileDeleted p
     else Event.tempFileDeleteFailed p) ∈ cleanup_temp_files removeOk fns := by
  exact List.mem_map.mpr ⟨p, h, rfl⟩

theorem runInvoke_events (env : RunEnv) (inp : InputParams)
    (openai_model : String) (provider : Option String)
    (model_requires_compat : Bool) (base64_images : List String)
    (rp rb : Option String) :
    (runInvoke env inp openai_model provider model_requires_compat
        base64_images rp rb).events =
      [Event.visionCall openai_model
        (inp.force_structured_output_compat || model_requires_compat)] := by
  unfold runInvoke
  dsimp only
  split <;> rfl

theorem runAfterRaster_vision (env : RunEnv) (agent : String)
    (inp : InputParams) (openai_model : String) (provider : Option String)
    (model_requires_compat : Bool) (base64_images : List String)
    (first : String) (m : String) (fc : Bool)
    (h : Event.visionCall m fc ∈ (runAfterRaster env agent inp openai_model
      provider model_requires_compat base64_images first).events) :
    m = openai_model ∧
      fc = (inp.force_structured_output_compat || model_requires_compat) := by
  unfold runAfterRaster at h
  by_cases hg : (first != "" && env.fs.pathExists first) = true
  · rw [if_pos hg] at h
    generalize env.findRef first agent inp.disable_threshold_filter = fr at h
    rcases fr with e | ⟨rp, rb⟩
    · simp at h
    · simp [runInvoke_events] at h
      exact ⟨h.1, h.2⟩
  · rw [if_neg hg] at h
    simp [runInvoke_events] at h
    exact ⟨h.1, h.2⟩

theorem runAfterRaster_no_created (env : RunEnv) (agent : String)
    (inp : InputParams) (openai_model : String) (provider : Option String)
    (model_requires_compat : Bool) (base64_images : List String)
    (first : String) (p : String) :
    Event.tempFileCreated p ∉ (runAfterRaster env agent inp openai_model
      provider model_requires_compat base64_images first).events := by
  intro h
  unfold runAfterRaster at h
  by_cases hg : (first != "" && env.fs.pathExists first) = true
  · rw [if_pos hg] at h
    generalize env.findRef first agent inp.disable_threshold_filter = fr at h
    rcases fr with e | ⟨rp, rb⟩
    · simp at h
    · simp [runInvoke_events] at h
  · rw [if_neg hg] at h
    simp [runInvoke_events] at h

theorem runAfterRaster_findRef_error (env : RunEnv) (agent : String)
    (inp : InputParams) (openai_model : String) (provider : Option String)
    (model_requires_compat : Bool) (base64_images : List String)
    (first : String) (p a : String) (d : Bool) (e : String)
    (hmem : Event.findRefCall p a d ∈ (runAfterRaster env agent inp openai_model
      provider model_requires_compat base64_images first).events)
    (herr : env.findRef p a d = Except.error e) :
    (runAfterRaster env agent inp openai_model provider model_requires_compat
        base64_images first).result = Except.error e ∧
    ∀ m fc, Event.visionCall m fc ∉ (runAfterRaster env agent inp openai_model
      provider model_requires_compat base64_images first).events := by
  unfold runAfterRaster at hmem ⊢
  by_cases hg : (first != "" && env.fs.pathExists first) = true
  · rw [if_pos hg] at hmem ⊢
    generalize hf : env.findRef first agent inp.disable_threshold_filter = fr at hmem ⊢
    rcases fr with e2 | ⟨rp, rb⟩
    · simp at hmem
      rcases hmem with ⟨hp, ha, hd⟩
      subst hp; subst ha; subst hd
      rw [herr] at hf
      injection hf with he
      subst he
      simp
    · simp [runInvoke_events] at hmem
      rcases hmem with ⟨hp, ha, hd⟩
      subst hp; subst ha; subst hd
      rw [herr] at hf
      exact Except.noConfusion hf
  · rw [if_neg hg] at hmem
    simp [runInvoke_events] at hmem

theorem runBody_vision (env : RunEnv) (agent_id : Option String)
    (inp : InputParams) (m : String) (fc : Bool)
    (h : Event.visionCall m fc ∈ (runBody env agent_id inp).events) :
    fc = (inp.force_structured_output_compat || strStartsWith m "gpt-5") := by
  unfold runBody at h
  by_cases hA : pyTruthy agent_id = true
  · simp only [hA, Bool.not_true, Bool.false_eq_true, if_false] at h
    rcases hgf : get_file_path env.fs inp.path with e | url <;>
      simp only [hgf] at h
    · simp at h
    · rcases hct : checktype url (env.readMime url) with e | u <;>
        simp only [hct] at h
      · simp at h
      · rcases hpr : prepare_images_for_ocr env.files url (env.readMime url)
            (inp.scale.getD DEFAULT_PDF_RENDER_SCALE) with e | ⟨imgs, fns⟩ <;>
          simp only [hpr] at h
        · simp at h
        · by_cases hpdf : (env.readMime url == some (mimeFormat "PDF")
              && !imgs.isEmpty) = true
          · rw [if_pos hpdf] at h
            rcases hsv : env.saveSearchTemp (os_path_dirname url ++ "/" ++
                env.uuid ++ "_search.jpeg") with e | u2 <;>
              simp only [hsv] at h
            · simp at h
            · simp only [List.mem_append, List.mem_cons,
                List.mem_singleton] at h
              rcases h with (h | h | h | h) | (h | h) <;>
                first
                | exact absurd h (by simp)
                | · rcases runAfterRaster_vision _ _ _ _ _ _ _ _ _ _ h with ⟨hm, hfc⟩
                    rw [hm]
                    exact hfc
          · rw [if_neg hpdf] at h
            simp only [List.mem_append, List.mem_cons,
              List.mem_singleton] at h
            rcases h with (h | h | h | h) | h <;>
              first
              | exact absurd h (by simp)
              | · rcases runAfterRaster_vision _ _ _ _ _ _ _ _ _ _ h with ⟨hm, hfc⟩
                  rw [hm]
                  exact hfc
  · simp only [Bool.not_eq_true] at hA
    simp [hA] at h

theorem runBody_created (env : RunEnv) (agent_id : Option String)
    (inp : InputParams) (p : String)
    (h : Event.tempFileCreated p ∈ (runBody env agent_id inp).events) :
    p ∈ (runBody env agent_id inp).filenames := by
  unfold runBody at h ⊢
  by_cases hA : pyTruthy agent_id = true
  · simp only [hA, Bool.not_true, Bool.false_eq_true, if_false] at h ⊢
    rcases hgf : get_file_path env.fs inp.path with e | url <;>
      simp only [hgf] at h ⊢
    · simp at h
    · rcases hct : checktype url (env.readMime url) with e | u <;>
        simp only [hct] at h ⊢
      · simp at h
      · rcases hpr : prepare_images_for_ocr env.files url (env.readMime url)
            (inp.scale.getD DEFAULT_PDF_RENDER_SCALE) with e | ⟨imgs, fns⟩ <;>
          simp only [hpr] at h ⊢
        · simp at h
        · by_cases hpdf : (env.readMime url == some (mimeFormat "PDF")
              && !imgs.isEmpty) = true
          · rw [if_pos hpdf] at h ⊢
            rcases hsv : env.saveSearchTemp (os_path_dirname url ++ "/" ++
                env.uuid ++ "_search.jpeg") with e | u2 <;>
              simp only [hsv] at h ⊢
            · simp at h
            · simp only [List.mem_append, List.mem_cons,
                List.mem_singleton] at h ⊢
              rcases h with (h | h | h | h) | (h | h)
              · exact absurd h (by simp)
              · exact absurd h (by simp)
              · exact absurd h (by simp)
              · exact absurd h (by simp)
              · injection h with hp
                exact Or.inr (Or.inl hp)
              · exact absurd h (runAfterRaster_no_created _ _ _ _ _ _ _ _ _)
          · rw [if_neg hpdf] at h ⊢
            simp only [List.mem_append, List.mem_cons,
              List.mem_singleton] at h
            rcases h with (h | h | h | h) | h
            · exact absurd h (by simp)
            · exact absurd h (by simp)
            · exact absurd h (by simp)
            · exact absurd h (by simp)
            · exact absurd h (runAfterRaster_no_created _ _ _ _ _ _ _ _ _)
  · simp only [Bool.not_eq_true] at hA
    simp [hA] at h

theorem runBody_findRef_error (env : RunEnv) (agent_id : Option String)
    (inp : InputParams) (p a : String) (d : Bool) (e : String)
    (hmem : Event.findRefCall p a d ∈ (runBody env agent_id inp).events)
    (herr : env.findRef p a d = Except.error e) :
    (runBody env agent_id inp).result = Except.error e ∧
    ∀ m fc, Event.visionCall m fc ∉ (runBody env agent_id inp).events := by
  unfold runBody at hmem ⊢
  by_cases hA : pyTruthy agent_id = true
  · simp only [hA, Bool.not_true, Bool.false_eq_true, if_false] at hmem ⊢
    rcases hgf : get_file_path env.fs inp.path with e2 | url <;>
      simp only [hgf] at hmem ⊢
    · simp at hmem
    · rcases hct : checktype url (env.readMime url) with e2 | u <;>
        simp only [hct] at hmem ⊢
      · simp at hmem
      · rcases hpr : prepare_images_for_ocr env.files url (env.readMime url)
            (inp.scale.getD DEFAULT_PDF_RENDER_SCALE) with e2 | ⟨imgs, fns⟩ <;>
          simp only [hpr] at hmem ⊢
        · simp at hmem
        · by_cases hpdf : (env.readMime url == some (mimeFormat "PDF")
              && !imgs.isEmpty) = true
          · rw [if_pos hpdf] at hmem ⊢
            rcases hsv : env.saveSearchTemp (os_path_dirname url ++ "/" ++
                env.uuid ++ "_search.jpeg") with e2 | u2 <;>
              simp only [hsv] at hmem ⊢
            · simp at hmem
            · simp only [List.mem_append, List.mem_cons,
                List.mem_singleton] at hmem
              rcases hmem with (hm | hm | hm | hm) | (hm | hm)
              · exact absurd hm (by simp)
              · exact absurd hm (by simp)
              · exact absurd hm (by simp)
              · exact absurd hm (by simp)
              · exact absurd hm (by simp)
              · rcases runAfterRaster_findRef_error _ _ _ _ _ _ _ _ _ _ _ _
                  hm herr with ⟨hres, hnov⟩
                refine ⟨hres, ?_⟩
                intro m fc hv
                simp only [List.mem_append, List.mem_cons,
                  List.mem_singleton] at hv
                rcases hv with (hv | hv | hv | hv) | (hv | hv)
                · exact absurd hv (by simp)
                · exact absurd hv (by simp)
                · exact absurd hv (by simp)
                · exact absurd hv (by simp)
                · exact absurd hv (by simp)
                · exact hnov m fc hv
          · rw [if_neg hpdf] at hmem ⊢
            simp only [List.mem_append, List.mem_cons,
              List.mem_singleton] at hmem
            rcases hmem with (hm | hm | hm | hm) | hm
            · exact absurd hm (by simp)
            · exact absurd hm (by simp)
            · exact absurd hm (by simp)
            · exact absurd hm (by simp)
            · rcases runAfterRaster_findRef_error _ _ _ _ _ _ _ _ _ _ _ _
                hm herr with ⟨hres, hnov⟩
              refine ⟨hres, ?_⟩
              intro m fc hv
              simp only [List.mem_append, List.mem_cons,
                List.mem_singleton] at hv
              rcases hv with (hv | hv | hv | hv) | hv
              · exact absurd hv (by simp)
              · exact absurd hv (by simp)
              · exact absurd hv (by simp)
              · exact absurd hv (by simp)
              · exact hnov m fc hv
  · simp only [Bool.not_eq_true] at hA
    simp [hA] at hmem

/-! ## Claim theorems -/

theorem checktype_some (url m : String) :
    checktype url (some m) =
      (if supportedMimeValues.contains m then Except.ok ()
       else Except.error ("File " ++ url ++ " invalid file format with mime " ++
         m ++ ". Supported formats: " ++ supportedFormatsRepr ++ ".")) := rfl

/-- C8: `checktype` accepts exactly the MIME values image/jpeg, image/png,
image/webp, image/gif and application/pdf; any other value, `None`
included, raises a `ValueError` whose message contains the offending MIME
and the supported-format set, and a validation failure stops the
pipeline: `run` returns the boundary error dictionary after exactly the
resolve, sniff and validate stages — no rasterization, no temp file, no
similarity search, no model call. -/
theorem checktype_accepts_exactly_supported :
    (∀ url m, checktype url (some m) = Except.ok () ↔
      m ∈ ["image/jpeg", "image/png", "image/webp", "image/gif",
           "application/pdf"]) ∧
    (∀ url, ∃ msg, checktype url none = Except.error msg) ∧
    (∀ url mime msg, checktype url mime = Except.error msg →
      (∃ l r, msg = l ++ (pyStrOpt mime ++ r)) ∧
      (∃ l r, msg = l ++ (supportedFormatsRepr ++ r))) ∧
    (∀ (env : RunEnv) (removeOk : String → Bool) (agent : Option String)
        (inp : InputParams) (url : String) (mime : Option String) (m : String),
      pyTruthy agent = true →
      get_file_path env.fs inp.path = Except.ok url →
      env.readMime url = mime →
      checktype url mime = Except.error m →
      OcrTool_run env removeOk agent inp =
        (RunResult.errDict ("An error occurred: " ++ m),
         [Event.getFilePathCall, Event.readMimeCall, Event.checktypeCall])) := by
  refine ⟨?_, ?_, ?_, ?_⟩
  · intro url m
    constructor
    · intro h
      have hc : supportedMimeValues.contains m = true := by
        by_contra hc
        rw [checktype_some, if_neg hc] at h
        exact Except.noConfusion h
      have hmem : m ∈ supportedMimeValues := List.mem_of_elem_eq_true hc
      simp only [supportedMimeValues, SUPPORTED_MIME_FORMATS, List.map_cons,
        List.map_nil, List.mem_cons, List.not_mem_nil, or_false] at hmem
      rcases hmem with h2 | h2 | h2 | h2 | h2 | h2 <;> subst h2 <;> simp
    · intro hm
      simp only [List.mem_cons, List.not_mem_nil, or_false] at hm
      rcases hm with h2 | h2 | h2 | h2 | h2 <;> subst h2 <;> rfl
  · intro url
    exact ⟨_, rfl⟩
  · intro url mime msg h
    have hparts : msg = "File " ++ url ++ " invalid file format with mime " ++
        pyStrOpt mime ++ ". Supported formats: " ++ supportedFormatsRepr ++
        "." := by
      rcases mime with _ | m
      · unfold checktype at h
        injection h with hm
        exact hm.symm
      · rw [checktype_some] at h
        by_cases hc : supportedMimeValues.contains m = true
        · rw [if_pos hc] at h
          exact Except.noConfusion h
        · rw [if_neg hc] at h
          injection h with hm
          exact hm.symm
    subst hparts
    constructor
    · exact ⟨"File " ++ url ++ " invalid file format with mime ",
        ". Supported formats: " ++ supportedFormatsRepr ++ ".",
        by simp [str_append_assoc]⟩
    · exact ⟨"File " ++ url ++ " invalid file format with mime " ++
          pyStrOpt mime ++ ". Supported formats: ", ".",
        by simp [str_append_assoc]⟩
  · intro env removeOk agent inp url mime m hA hgf hmime hct
    unfold OcrTool_run runBody
    simp only [hA, Bool.not_true, Bool.false_eq_true, if_false, hgf, hmime, hct,
      cleanup_temp_files, List.map_nil, List.append_nil]

/-- C6 counterexample: the claim says the first candidate that exists
*and is a regular file* wins.  With the raw path an existing regular file
but the root-prefixed candidate an existing directory, the code commits
to the root-prefixed candidate and raises `FileNotFoundError` instead of
resolving to the raw path. -/
theorem get_file_path_counterexample :
    fsC6.pathExists "/doc.png" = true ∧ fsC6.isFile "/doc.png" = true ∧
    fsC6.pathExists "/app/doc.png" = true ∧
    fsC6.isFile "/app/doc.png" = false ∧
    get_file_path fsC6 "/doc.png" =
      Except.error "Filename /app/doc.png doesn\x27t exist" :=
  ⟨rfl, rfl, rfl, rfl, rfl⟩

/-- C6 amended: `get_file_path` tries `(configured_root + path)`,
`(parent_of_root + path)`, then `path` as-is; the first candidate that
*exists* wins (with the raw path as unconditional final fallback), and
the winner must additionally be a regular file, otherwise
`FileNotFoundError` is raised. -/
theorem get_file_path_resolves_first_existing (fs : FS) (rel_path : String) :
    get_file_path fs rel_path = get_file_path_amended fs rel_path := by
  unfold get_file_path get_file_path_amended resolve_first_existing
  by_cases h1 : fs.pathExists ("/app" ++ rel_path) = true <;>
    by_cases h2 : fs.pathExists (".." ++ rel_path) = true <;>
      simp [h1, h2, List.find?]

/-- C2 counterexample: a PDF whose document has zero pages is not a hard
error — rasterization succeeds with an empty page list. -/
theorem zero_page_pdf_counterexample :
    prepare_images_for_ocr filesZeroPdf "/d.pdf" (some "application/pdf") 2 =
      Except.ok ([], []) := rfl

/-- C2 amended: for a PDF input whose document renders to zero pages,
`prepare_images_for_ocr` returns an empty list of raster pages (and no
temp files); there is no "no pages" error. -/
theorem zero_page_pdf_empty (env : FileEnv) (url : String) (scale : Rat)
    (h : env.pdfPagesJpeg url scale = Except.ok []) :
    prepare_images_for_ocr env url (some "application/pdf") scale =
      Except.ok ([], []) := by
  unfold prepare_images_for_ocr recopile_files
  simp [h, mimeFormat_PDF]

/-- C2 amended, witness. -/
theorem zero_page_pdf_empty_witness :
    prepare_images_for_ocr filesZeroPdf "/e.pdf" (some "application/pdf") 2 =
      Except.ok ([], []) :=
  zero_page_pdf_empty filesZeroPdf "/e.pdf" 2 rfl

/-- C9: for a PDF with N pages (N ≥ 1) the pipeline yields exactly the N
page encodings in page order; for a flat non-JPEG image exactly one
re-encoded entry; for a JPEG exactly one entry that is the base64
encoding of the original file bytes unchanged. -/
theorem prepare_images_counts :
    (∀ (env : FileEnv) (url : String) (scale : Rat) (pages : List Bytes),
      env.pdfPagesJpeg url scale = Except.ok pages → 1 ≤ pages.length →
      prepare_images_for_ocr env url (some "application/pdf") scale =
        Except.ok (pages.map pil_image_to_base64, []) ∧
      (pages.map pil_image_to_base64).length = pages.length) ∧
    (∀ (env : FileEnv) (url : String) (scale : Rat) (m : String) (bs : Bytes),
      m ∈ supportedMimeValues → m ≠ "application/pdf" → m ≠ "image/jpeg" →
      env.imageRgbJpeg url = Except.ok bs →
      prepare_images_for_ocr env url (some m) scale =
        Except.ok ([pil_image_to_base64 bs], [])) ∧
    (∀ (env : FileEnv) (url : String) (scale : Rat) (bs : Bytes),
      env.readBytes url = Except.ok bs →
      prepare_images_for_ocr env url (some "image/jpeg") scale =
        Except.ok ([image_to_base64 bs], [])) := by
  refine ⟨?_, ?_, ?_⟩
  · intro env url scale pages h _hn
    refine ⟨?_, List.length_map _ _⟩
    unfold prepare_images_for_ocr recopile_files
    simp [h, mimeFormat_PDF]
  · intro env url scale m bs _hmem hm2 hm3 h
    unfold prepare_images_for_ocr recopile_files
    simp [h, mimeFormat_PDF, mimeFormat_JPEG, mimeFormat_JPG, hm2, hm3]
  · intro env url scale bs h
    unfold prepare_images_for_ocr recopile_files
    simp [h, mimeFormat_PDF, mimeFormat_JPEG, mimeFormat_JPG]

/-- C9 witness: a two-page PDF, a WEBP image and a JPEG image. -/
theorem prepare_images_counts_witness :
    prepare_images_for_ocr filesDemo "/d.pdf" (some "application/pdf") 2 =
      Except.ok ([pil_image_to_base64 [3], pil_image_to_base64 [4]], []) ∧
    prepare_images_for_ocr filesDemo "/i.webp" (some "image/webp") 2 =
      Except.ok ([pil_image_to_base64 [2]], []) ∧
    prepare_images_for_ocr filesDemo "/i.jpg" (some "image/jpeg") 2 =
      Except.ok ([image_to_base64 [1]], []) :=
  ⟨(prepare_images_counts.1 filesDemo "/d.pdf" 2 [[3], [4]] rfl
      (by decide)).1,
   prepare_images_counts.2.1 filesDemo "/i.webp" 2 "image/webp" [2]
     (by decide) (by decide) (by decide) rfl,
   prepare_images_counts.2.2 filesDemo "/i.jpg" 2 [1] rfl⟩

/-- C8 witness: a file sniffing as `image/tiff` stops the pipeline at
validation with the boundary error dictionary. -/
theorem checktype_accepts_exactly_supported_witness :
    OcrTool_run envBadMime removeAlways (some "a") (inpDemo false) =
      (RunResult.errDict ("An error occurred: " ++
        ("File " ++ "/app/f" ++ " invalid file format with mime " ++
         pyStrOpt (some "image/tiff") ++ ". Supported formats: " ++
         supportedFormatsRepr ++ ".")),
       [Event.getFilePathCall, Event.readMimeCall, Event.checktypeCall]) :=
  checktype_accepts_exactly_supported.2.2.2 envBadMime removeAlways (some "a")
    (inpDemo false) "/app/f" (some "image/tiff")
    ("File " ++ "/app/f" ++ " invalid file format with mime " ++
     pyStrOpt (some "image/tiff") ++ ". Supported formats: " ++
     supportedFormatsRepr ++ ".") rfl rfl rfl rfl

/-- C5: for every page list, question, optional reference and provider,
the conversation is system first, then (when a reference is present)
exactly the user/user/assistant reference exchange carrying a single
reference image part, then the question as its own user message
immediately before the page images, then one user message per page with
a single image part; the length is 5+N with a reference, 2+N without
(so 8 messages for a 3-page PDF with a reference). -/
theorem build_messages_order (base64_images : List String) (question : String)
    (ref extra provider : Option String) :
    (build_messages base64_images question ref extra provider).length =
      (if pyTruthy ref then 5 else 2) + base64_images.length ∧
    (build_messages base64_images question ref extra provider).map
        Message.role =
      Role.system ::
        ((if pyTruthy ref then [Role.user, Role.user, Role.assistant]
          else []) ++
          Role.user :: List.replicate base64_images.length Role.user) ∧
    (pyTruthy ref = true →
      (build_messages base64_images question ref extra provider)[1]? =
        some (Message.mk Role.user (MsgContent.text REFERENCE_INTRO_PROMPT)) ∧
      (build_messages base64_images question ref extra provider)[2]? =
        some (Message.mk Role.user (MsgContent.parts
          [get_image_payload_item (ref.getD "") (mimeFormat "JPEG")
            provider])) ∧
      (build_messages base64_images question ref extra provider)[3]? =
        some (Message.mk Role.assistant (MsgContent.text REFERENCE_ACK))) ∧
    (build_messages base64_images question ref extra
        provider)[(if pyTruthy ref then 4 else 1)]? =
      some (Message.mk Role.user (MsgContent.text question)) ∧
    (build_messages base64_images question ref extra provider).drop
        (if pyTruthy ref then 5 else 2) =
      base64_images.map (fun b64 => Message.mk Role.user (MsgContent.parts
        [get_image_payload_item b64 (mimeFormat "JPEG") provider])) := by
  have hmap : ∀ (l : List String),
      List.map (Message.role ∘ fun b64 => Message.mk Role.user
        (MsgContent.parts
          [get_image_payload_item b64 (mimeFormat "JPEG") provider])) l =
      List.replicate l.length Role.user := by
    intro l
    induction l with
    | nil => rfl
    | cons a t ih => simp [List.replicate_succ, ih]
  cases h : pyTruthy ref <;>
    simp [build_messages, h, List.map_map, Function.comp, Nat.add_comm] <;>
    exact ⟨by omega, hmap _⟩

/-- C5 witness: three pages with a reference give 8 messages, and the
reference image part sits alone at index 2. -/
theorem build_messages_order_witness :
    (build_messages ["A", "B", "C"] "q" (some "R") none
      (some "openai")).length = 8 ∧
    (build_messages ["A", "B", "C"] "q" (some "R") none (some "openai"))[2]? =
      some (Message.mk Role.user (MsgContent.parts
        [get_image_payload_item "R" (mimeFormat "JPEG") (some "openai")])) :=
  ⟨(build_messages_order ["A", "B", "C"] "q" (some "R") none
      (some "openai")).1,
   ((build_messages_order ["A", "B", "C"] "q" (some "R") none
      (some "openai")).2.2.1 rfl).2.1⟩

/-- C7: with a schema and compatibility mode off, the native structured
path is used, and on any exception it falls back to one unstructured
invocation instead of propagating; with a schema and compatibility mode
on, the native structured path is never invoked and the schema JSON is
embedded as text into the system message before invocation. -/
theorem structured_output_negotiation :
    (∀ (env : LlmEnv) (messages : List Message) (model : String) (s : Schema)
        (e c : String),
      env.structuredInvoke (providerOf model) model (temperatureOf model)
          (some s) messages = Except.error e →
      env.plainInvoke (providerOf model) model (temperatureOf model)
          messages = Except.ok c →
      get_vision_model_response env messages model (some s) false =
        Except.ok (ModelResponse.txt c,
          [LlmCall.structuredCall, LlmCall.plainCall])) ∧
    (∀ (env : LlmEnv) (messages : List Message) (model : String) (s : Schema)
        (v : String),
      env.structuredInvoke (providerOf model) model (temperatureOf model)
          (some s) messages = Except.ok v →
      get_vision_model_response env messages model (some s) false =
        Except.ok (ModelResponse.obj v, [LlmCall.structuredCall])) ∧
    (∀ (env : LlmEnv) (messages : List Message) (model : String) (s : Schema)
        (res : ModelResponse) (calls : List LlmCall),
      get_vision_model_response env messages model (some s) true =
        Except.ok (res, calls) →
      LlmCall.structuredCall ∉ calls ∧ ∃ c, res = ModelResponse.txt c) ∧
    (∀ (s : Schema) (base64_images : List String) (question : String)
        (ref provider : Option String),
      read_structured_output none true (some s) =
        some (STRUCTURED_SCHEMA_HEADER ++ s.jsonDump) ∧
      (build_messages base64_images question ref
          (read_structured_output none true (some s)) provider)[0]? =
        some (Message.mk Role.system (MsgContent.text (OCR_SYSTEM_PROMPT ++
          "\n" ++ (STRUCTURED_SCHEMA_HEADER ++ s.jsonDump))))) := by
  refine ⟨?_, ?_, ?_, ?_⟩
  · intro env messages model s e c hs hp
    unfold get_vision_model_response
    simp [hs, hp]
  · intro env messages model s v hs
    unfold get_vision_model_response
    simp [hs]
  · intro env messages model s res calls h
    unfold get_vision_model_response at h
    simp only [Option.isSome_some, Bool.true_and, Bool.not_true,
      Bool.and_false, Bool.false_eq_true, if_false] at h
    rcases hp : env.plainInvoke (providerOf model) model (temperatureOf model)
        messages with e | c <;> simp only [hp] at h
    · exact Except.noConfusion h
    · injection h with h2
      injection h2 with hres hcalls
      subst hres
      subst hcalls
      exact ⟨by simp, c, rfl⟩
  · intro s base64_images question ref provider
    refine ⟨rfl, ?_⟩
    have htruthy : pyTruthy (read_structured_output none true (some s)) =
        true := by
      unfold read_structured_output
      simp only [pyTruthy, bne_iff_ne, ne_eq]
      exact header_append_ne_empty s.jsonDump
    unfold build_messages
    simp [htruthy]
    rfl

/-- C7 witness: a failing structured wrapper falls back to the
unstructured invocation, and in compatibility mode the schema JSON lands
inside the system message. -/
theorem structured_output_negotiation_witness :
    get_vision_model_response llmStructFail [] "gpt-4o" (some ⟨"J"⟩) false =
      Except.ok (ModelResponse.txt "T",
        [LlmCall.structuredCall, LlmCall.plainCall]) ∧
    (build_messages [] "q" none
        (read_structured_output none true (some ⟨"J"⟩)) none)[0]? =
      some (Message.mk Role.system (MsgContent.text (OCR_SYSTEM_PROMPT ++
        "\n" ++ (STRUCTURED_SCHEMA_HEADER ++ "J")))) :=
  ⟨structured_output_negotiation.1 llmStructFail [] "gpt-4o" ⟨"J"⟩ "sfail"
     "T" rfl rfl,
   (structured_output_negotiation.2.2.2 ⟨"J"⟩ [] "q" none none).2⟩

/-- C4: the compatibility-mode value handed to the vision invocation is
true iff the caller-supplied flag is true or the selected model name
starts with "gpt-5". -/
theorem compat_mode_truth_table (env : RunEnv) (removeOk : String → Bool)
    (agent_id : Option String) (inp : InputParams) (m : String) (fc : Bool)
    (h : Event.visionCall m fc ∈ (OcrTool_run env removeOk agent_id inp).2) :
    fc = (inp.force_structured_output_compat || strStartsWith m "gpt-5") := by
  unfold OcrTool_run at h
  simp only [List.mem_append] at h
  rcases h with h | h
  · exact runBody_vision env agent_id inp m fc h
  · rcases cleanup_mem_shape removeOk _ _ h with ⟨q, hs, _⟩
    rcases hs with h2 | h2 <;> exact Event.noConfusion h2

/-- C4 witness: all four flag/model truth-table combinations, read off
actual runs. -/
theorem compat_mode_truth_table_witness :
    (false = (false || strStartsWith "gpt-4o" "gpt-5")) ∧
    (true = (true || strStartsWith "gpt-4o" "gpt-5")) ∧
    (true = (false || strStartsWith "gpt-5-mini" "gpt-5")) ∧
    (true = (true || strStartsWith "gpt-5-mini" "gpt-5")) :=
  ⟨compat_mode_truth_table (envDemo "gpt-4o") removeAlways (some "a")
     (inpDemo false) "gpt-4o" false (by decide),
   compat_mode_truth_table (envDemo "gpt-4o") removeAlways (some "a")
     (inpDemo true) "gpt-4o" true (by decide),
   compat_mode_truth_table (envDemo "gpt-5-mini") removeAlways (some "a")
     (inpDemo false) "gpt-5-mini" true (by decide),
   compat_mode_truth_table (envDemo "gpt-5-mini") removeAlways (some "a")
     (inpDemo true) "gpt-5-mini" true (by decide)⟩

/-- C3: every temp path registered during an invocation receives a
deletion attempt before `run` returns — deleted when `os.remove`
succeeds, a logged-and-swallowed failure event otherwise — and the
returned result never depends on deletion outcomes. -/
theorem cleanup_invariant (env : RunEnv) (agent_id : Option String)
    (inp : InputParams) :
    (∀ (removeOk : String → Bool) (p : String),
      Event.tempFileCreated p ∈ (OcrTool_run env removeOk agent_id inp).2 →
      (removeOk p = true →
        Event.tempFileDeleted p ∈
          (OcrTool_run env removeOk agent_id inp).2) ∧
      (removeOk p = false →
        Event.tempFileDeleteFailed p ∈
          (OcrTool_run env removeOk agent_id inp).2)) ∧
    (∀ f g, (OcrTool_run env f agent_id inp).1 =
      (OcrTool_run env g agent_id inp).1) := by
  constructor
  · intro removeOk p h
    have hbodymem : Event.tempFileCreated p ∈
        (runBody env agent_id inp).events := by
      unfold OcrTool_run at h
      simp only [List.mem_append] at h
      rcases h with h | h
      · exact h
      · rcases cleanup_mem_shape removeOk _ _ h with ⟨q, hs, _⟩
        rcases hs with h2 | h2 <;> exact Event.noConfusion h2
    have hfn : p ∈ (runBody env agent_id inp).filenames :=
      runBody_created env agent_id inp p hbodymem
    have hattempt := cleanup_attempt_of_mem removeOk
      (runBody env agent_id inp).filenames p hfn
    constructor
    · intro hr
      rw [hr] at hattempt
      unfold OcrTool_run
      simp only [List.mem_append]
      right
      simpa using hattempt
    · intro hr
      rw [hr] at hattempt
      unfold OcrTool_run
      simp only [List.mem_append]
      right
      simpa using hattempt
  · intro f g
    rfl

/-- C3 witness: the PDF search temp file is registered and then deleted
on the happy path, and the result is unchanged when deletion fails. -/
theorem cleanup_invariant_witness :
    Event.tempFileDeleted "/app/u_search.jpeg" ∈
      (OcrTool_run (envDemoPdf "gpt-4o") removeAlways (some "a")
        (inpDemo false)).2 ∧
    (OcrTool_run (envDemoPdf "gpt-4o") removeAlways (some "a")
        (inpDemo false)).1 =
      (OcrTool_run (envDemoPdf "gpt-4o") removeNever (some "a")
        (inpDemo false)).1 :=
  ⟨((cleanup_invariant (envDemoPdf "gpt-4o") (some "a") (inpDemo false)).1
      removeAlways "/app/u_search.jpeg" (by decide)).1 rfl,
   (cleanup_invariant (envDemoPdf "gpt-4o") (some "a") (inpDemo false)).2
     removeAlways removeNever⟩

/-- C1 counterexample: with `find_similar_reference` raising "boom" on a
resolved PNG input, `run` surfaces `{"error": "An error occurred: boom"}`
to the caller and extraction never happens — the trace ends at the
similarity-search call, with no model invocation. -/
theorem find_ref_exception_counterexample :
    OcrTool_run envRefBoom removeAlways (some "a") (inpDemo false) =
      (RunResult.errDict ("An error occurred: " ++ "boom"),
       [Event.getFilePathCall, Event.readMimeCall, Event.checktypeCall,
        Event.prepareImagesCall, Event.findRefCall "/app/f" "a" false]) := by
  decide

/-- C1 amended: an exception raised by `find_similar_reference` is not
treated as "no match" — it escapes to the `run` boundary handler, the
invocation returns the `{"error": ...}` dictionary carrying the
exception message, and no model invocation takes place. -/
theorem find_ref_exception_surfaces (env : RunEnv)
    (removeOk : String → Bool) (agent_id : Option String)
    (inp : InputParams) (p a : String) (d : Bool) (e : String)
    (hmem : Event.findRefCall p a d ∈
      (OcrTool_run env removeOk agent_id inp).2)
    (herr : env.findRef p a d = Except.error e) :
    (OcrTool_run env removeOk agent_id inp).1 =
      RunResult.errDict ("An error occurred: " ++ e) ∧
    ∀ m fc, Event.visionCall m fc ∉
      (OcrTool_run env removeOk agent_id inp).2 := by
  have hbody : Event.findRefCall p a d ∈ (runBody env agent_id inp).events := by
    unfold OcrTool_run at hmem
    simp only [List.mem_append] at hmem
    rcases hmem with h | h
    · exact h
    · rcases cleanup_mem_shape removeOk _ _ h with ⟨q, hs, _⟩
      rcases hs with h2 | h2 <;> exact Event.noConfusion h2
  rcases runBody_findRef_error env agent_id inp p a d e hbody herr with
    ⟨hres, hnov⟩
  constructor
  · unfold OcrTool_run
    simp [hres]
  · intro m fc hv
    unfold OcrTool_run at hv
    simp only [List.mem_append] at hv
    rcases hv with h | h
    · exact hnov m fc h
    · rcases cleanup_mem_shape removeOk _ _ h with ⟨q, hs, _⟩
      rcases hs with h2 | h2 <;> exact Event.noConfusion h2

/-- C1 amended, witness. -/
theorem find_ref_exception_surfaces_witness :
    (OcrTool_run envRefBoom removeAlways (some "a") (inpDemo false)).1 =
      RunResult.errDict ("An error occurred: " ++ "boom") ∧
    Event.visionCall "gpt-4o" false ∉
      (OcrTool_run envRefBoom removeAlways (some "a") (inpDemo false)).2 :=
  ⟨(find_ref_exception_surfaces envRefBoom removeAlways (some "a")
      (inpDemo false) "/app/f" "a" false "boom" (by decide) rfl).1,
   (find_ref_exception_surfaces envRefBoom removeAlways (some "a")
      (inpDemo false) "/app/f" "a" false "boom" (by decide) rfl).2
     "gpt-4o" false⟩

/-- C10: with `agent_id` unset or empty, `run` returns the error
dictionary immediately: the trace is empty, so no path resolution, MIME
sniffing, rasterization, temp-file creation or external call happens and
the filesystem is untouched. -/
theorem agent_id_guard (env : RunEnv) (removeOk : String → Bool)
    (inp : InputParams) (agent_id : Option String)
    (h : pyTruthy agent_id = false) :
    OcrTool_run env removeOk agent_id inp =
      (RunResult.errDict AGENT_ID_ERROR, []) := by
  unfold OcrTool_run runBody
  simp [h, cleanup_temp_files]

/-- C10 witness: both a missing and an empty agent id. -/
theorem agent_id_guard_witness :
    OcrTool_run (envDemo "gpt-4o") removeAlways none (inpDemo false) =
      (RunResult.errDict AGENT_ID_ERROR, []) ∧
    OcrTool_run (envDemo "gpt-4o") removeAlways (some "") (inpDemo false) =
      (RunResult.errDict AGENT_ID_ERROR, []) :=
  ⟨agent_id_guard (envDemo "gpt-4o") removeAlways (inpDemo false) none rfl,
   agent_id_guard (envDemo "gpt-4o") removeAlways (inpDemo false)
     (some "") rfl⟩

end OcrToolSpec
